import Mathlib

/-!
Verification of the Vocalls development workspace core against its design
specification.  The definitions below are shallow embeddings of the
JavaScript sources:

* `core/src/utils/sorting.js`      — the Fragment Sorter,
* `core/src/utils/validation.js`   — the ES5.1 compliance Scanner,
* `core/src/simulator/engine.js`   — the Simulation Session engine.

Strings are modelled by Lean `String` / `List Char`; JavaScript numbers that
only ever hold small integers are modelled by `Nat` / `Int`.
-/

set_option maxRecDepth 8000

namespace Vocalls

/-! ### Fragment Sorter — `core/src/utils/sorting.js` -/

/-- Code-unit lexicographic three-way comparison of character lists.
Used to model both `String.prototype.localeCompare` and the default
`Array.prototype.sort` string comparison; the two agree on the ASCII
file names this development considers. -/
def lexCmp : List Char → List Char → Int
  | [], [] => 0
  | [], _ :: _ => -1
  | _ :: _, [] => 1
  | a :: as, b :: bs => if a = b then lexCmp as bs else if a < b then -1 else 1

/-- Models `a.localeCompare(b)` from `sortLibraryFiles`. -/
def localeCompare (a b : String) : Int := lexCmp a.data b.data

/-- Models the regex test `/^\d/.test(a)`. -/
def startsWithDigit (s : String) : Bool :=
  match s.data with
  | [] => false
  | c :: _ => c.isDigit

/-- The leading digit run of a name, `a.match(/^\d+/)[0]`. -/
def leadingDigits (s : String) : List Char := s.data.takeWhile Char.isDigit

/-- Decimal value of a digit run, `parseInt(run, 10)`. -/
def parseNatDigits (ds : List Char) : Nat :=
  ds.foldl (fun acc c => acc * 10 + (c.toNat - '0'.toNat)) 0

/-- Numeric value of the leading digit run of a numeric-leading name. -/
def leadingNumber (s : String) : Int := parseNatDigits (leadingDigits s)

/-- The comparator passed to `files.sort` in `sortLibraryFiles`:
numeric-leading names compare by leading number, numeric-leading names
come before the rest, the rest compare by `localeCompare`. -/
def vocallsCompare (a b : String) : Int :=
  if startsWithDigit a && startsWithDigit b then leadingNumber a - leadingNumber b
  else if startsWithDigit a && !startsWithDigit b then -1
  else if !startsWithDigit a && startsWithDigit b then 1
  else localeCompare a b

/-- Stable insertion of one element with respect to a JavaScript-style
comparator (negative: first argument sorts earlier). -/
def jsInsert (cmp : String → String → Int) (x : String) : List String → List String
  | [] => [x]
  | b :: bs => if cmp b x ≤ 0 then b :: jsInsert cmp x bs else x :: b :: bs

/-- Model of `Array.prototype.sort(cmp)`.  ECMAScript sorting is stable and,
for a consistent comparator such as `vocallsCompare`, produces the unique
stably sorted arrangement; stable insertion sort computes exactly that. -/
def jsSort (cmp : String → String → Int) (l : List String) : List String :=
  l.foldl (fun acc x => jsInsert cmp x acc) []

/-- `sortLibraryFiles(files)` — the returned (sorted) array. -/
def sortLibraryFiles (files : List String) : List String :=
  jsSort vocallsCompare files

/-- Models `libraryOrder.includes(file)` (strict string equality). -/
def includes (l : List String) (x : String) : Bool := decide (x ∈ l)

/-- `sortLibraryFilesWithDependencies(files, libraryOrder)` — the returned
array.  `none` models the `null`/absent argument; `if (libraryOrder &&
libraryOrder.length > 0)` sends an empty explicit order to the fallback. -/
def sortLibraryFilesWithDependencies
    (files : List String) (libraryOrder : Option (List String)) : List String :=
  match libraryOrder with
  | some ord =>
    if ord.length > 0 then
      ord ++ sortLibraryFiles (files.filter (fun f => !(includes ord f)))
    else sortLibraryFiles files
  | none => sortLibraryFiles files

/-- `sortLibraryFiles` as a call on an array object: `Array.prototype.sort`
sorts in place and returns the receiver, so the call's value and the
post-state of the argument array coincide. -/
def sortLibraryFilesCall (files : List String) : List String × List String :=
  (sortLibraryFiles files, sortLibraryFiles files)

/-- `sortLibraryFilesWithDependencies` as a call: first component is the
returned array, second is the post-state of the `files` array object.
On the explicit-order path only the fresh `filter` result is sorted, so
`files` is untouched; on the fallback path `files` itself is sorted. -/
def sortLibraryFilesWithDependenciesCall
    (files : List String) (libraryOrder : Option (List String)) :
    List String × List String :=
  match libraryOrder with
  | some ord =>
    if ord.length > 0 then
      (ord ++ (sortLibraryFilesCall (files.filter (fun f => !(includes ord f)))).1,
       files)
    else sortLibraryFilesCall files
  | none => sortLibraryFilesCall files

/-! ### Simulator library-order resolution — `core/src/simulator/engine.js` -/

/-- `startsWithSeq needle hay`: `needle` is a prefix of `hay`. -/
def startsWithSeq : List Char → List Char → Bool
  | [], _ => true
  | _ :: _, [] => false
  | a :: as, b :: bs => a == b && startsWithSeq as bs

/-- `endsWithSeq suf s`: `suf` is a suffix of `s` (models `String.prototype.endsWith`). -/
def endsWithSeq (suf s : List Char) : Bool :=
  startsWithSeq suf.reverse s.reverse

/-- Default `Array.prototype.sort()` comparison: UTF-16 code-unit order. -/
def jsDefaultCompare (a b : String) : Int := lexCmp a.data b.data

/-- `getLibraryFiles` from the engine: directory entries filtered to `.js`
and sorted with the comparator-less `.sort()` — the code's own comment calls
this the "Alphabetical fallback".  The Fragment Sorter is not involved. -/
def getLibraryFiles (files : List String) : List String :=
  jsSort jsDefaultCompare (files.filter (fun f => endsWithSeq ".js".data f.data))

/-- Library load order resolved by `loadProjectFiles`:
`config.libraryOrder || await this.getLibraryFiles(libsDir)`.
`some ord` models a present (hence truthy — an empty array is truthy in
JavaScript, and a missing `project.json` yields `{libraryOrder: []}`)
`libraryOrder` property; `none` models an absent/undefined one. -/
def simulatorLibraryOrder
    (files : List String) (configLibraryOrder : Option (List String)) : List String :=
  match configLibraryOrder with
  | some ord => ord
  | none => getLibraryFiles files

/-- Modelled from the spec: the Assembler (`core/src/commands/build.js`,
whose source is not among the provided files) resolves the library Load
Order by "applying the Fragment Sorter to the library set using the
project's explicit order if present" (§4.3), i.e. it calls
`sortLibraryFilesWithDependencies` from `core/src/utils/sorting.js`. -/
def assemblerLibraryOrder
    (files : List String) (configLibraryOrder : Option (List String)) : List String :=
  sortLibraryFilesWithDependencies files configLibraryOrder

/-! ### ES5.1 compliance Scanner — `core/src/utils/validation.js`

`validateES51Compliance` tests each (comment-stripped) line of the source
against a fixed list of regular expressions.  The regexes used by the file
are built from literals, character classes with `*`/`+`, alternation and
word boundaries only; they are embedded as token sequences below, and
`regexTest` has exactly the semantics of `RegExp.prototype.test` (does any
position of the string start a match). -/

/-- `\w` of JavaScript regexes: ASCII letters, digits, underscore. -/
def isWordChar (c : Char) : Bool := c.isAlpha || c.isDigit || c = '_'

/-- Whether the class test of an optional character sees a word character
(`none` is the edge of the string, never a word character). -/
def optWord : Option Char → Bool
  | none => false
  | some c => isWordChar c

/-- A `\b` word boundary sits between characters of different word-ness. -/
def boundaryAt (prev next : Option Char) : Bool := optWord prev != optWord next

/-- JavaScript `\s` restricted to the code points that occur in source
files handled here. -/
def jsSpace (c : Char) : Bool :=
  c = ' ' || c = '\t' || c = '\n' || c = '\r' || c = '\x0b' || c = '\x0c' ||
  c = ' '

/-- One token of an embedded regular expression: a literal run, a single
character from a class, zero-or-more characters from a class, or a word
boundary.  `X+` is written as the two tokens `cls X, star X`. -/
inductive RTok where
  | lit : List Char → RTok
  | cls : (Char → Bool) → RTok
  | star : (Char → Bool) → RTok
  | wb : RTok

/-- Last character of `w`, or `prev` when `w` is empty — the character to
the left of the remainder of the input after consuming `w`. -/
def lastOr (w : List Char) (prev : Option Char) : Option Char :=
  match w.getLast? with
  | some c => some c
  | none => prev

/-- Match a token sequence at the start of `cs`; `prev` is the character
just before `cs` in the full string (for word boundaries).  `star` tries
every split, which coincides with backtracking-regex match existence. -/
def matchSeq : List RTok → Option Char → List Char → Bool
  | [], _, _ => true
  | RTok.wb :: ts, prev, cs => boundaryAt prev cs.head? && matchSeq ts prev cs
  | RTok.lit w :: ts, prev, cs =>
    if startsWithSeq w cs then matchSeq ts (lastOr w prev) (cs.drop w.length)
    else false
  | RTok.cls p :: ts, _, cs =>
    match cs with
    | [] => false
    | c :: cs2 => p c && matchSeq ts (some c) cs2
  | RTok.star p :: ts, prev, cs =>
    (List.range (cs.length + 1)).any fun k =>
      (cs.take k).all p && matchSeq ts (lastOr (cs.take k) prev) (cs.drop k)

/-- Try a match at every position of the string. -/
def searchSeq (ts : List RTok) : Option Char → List Char → Bool
  | prev, [] => matchSeq ts prev []
  | prev, c :: cs2 => matchSeq ts prev (c :: cs2) || searchSeq ts (some c) cs2

/-- `pattern.test(s)` for an alternation of token sequences. -/
def regexTest (alts : List (List RTok)) (cs : List Char) : Bool :=
  alts.any fun ts => searchSeq ts none cs

/-- `/\basync\b|\bawait\b/` -/
def patAsync : List (List RTok) :=
  [[RTok.wb, RTok.lit "async".data, RTok.wb],
   [RTok.wb, RTok.lit "await".data, RTok.wb]]

/-- `/\bclass\s+[\w$]+/` -/
def patClassDecl : List (List RTok) :=
  [[RTok.wb, RTok.lit "class".data, RTok.cls jsSpace, RTok.star jsSpace,
    RTok.cls (fun c => isWordChar c || c = '$'),
    RTok.star (fun c => isWordChar c || c = '$')]]

/-- `/\bimport\s|export\s+/` (no boundary before `export` in the source). -/
def patModule : List (List RTok) :=
  [[RTok.wb, RTok.lit "import".data, RTok.cls jsSpace],
   [RTok.lit "export".data, RTok.cls jsSpace, RTok.star jsSpace]]

/-- `/\brequire\s*\(/` -/
def patRequire : List (List RTok) :=
  [[RTok.wb, RTok.lit "require".data, RTok.star jsSpace, RTok.lit "(".data]]

/-- `/\b(let|const)\s+/` -/
def patLetConst : List (List RTok) :=
  [[RTok.wb, RTok.lit "let".data, RTok.cls jsSpace, RTok.star jsSpace],
   [RTok.wb, RTok.lit "const".data, RTok.cls jsSpace, RTok.star jsSpace]]

/-- `/\.catch\s*\(/` -/
def patCatch : List (List RTok) :=
  [[RTok.lit ".catch".data, RTok.star jsSpace, RTok.lit "(".data]]

/-- `/\?\?/` -/
def patNullish : List (List RTok) := [[RTok.lit "??".data]]

/-- `/\?\./` -/
def patOptChain : List (List RTok) := [[RTok.lit "?.".data]]

/-- `/\beval\s*\(|new\s+Function\s*\(/` -/
def patEval : List (List RTok) :=
  [[RTok.wb, RTok.lit "eval".data, RTok.star jsSpace, RTok.lit "(".data],
   [RTok.lit "new".data, RTok.cls jsSpace, RTok.star jsSpace,
    RTok.lit "Function".data, RTok.star jsSpace, RTok.lit "(".data]]

/-- `/\bconsole\.(log|info|warn|error)\s*\(/` -/
def patConsole : List (List RTok) :=
  [[RTok.wb, RTok.lit "console.log".data, RTok.star jsSpace, RTok.lit "(".data],
   [RTok.wb, RTok.lit "console.info".data, RTok.star jsSpace, RTok.lit "(".data],
   [RTok.wb, RTok.lit "console.warn".data, RTok.star jsSpace, RTok.lit "(".data],
   [RTok.wb, RTok.lit "console.error".data, RTok.star jsSpace, RTok.lit "(".data]]

/-- `/\bsetTimeout\s*\(|\bsetInterval\s*\(/` -/
def patTimers : List (List RTok) :=
  [[RTok.wb, RTok.lit "setTimeout".data, RTok.star jsSpace, RTok.lit "(".data],
   [RTok.wb, RTok.lit "setInterval".data, RTok.star jsSpace, RTok.lit "(".data]]

/-- `/\bPromise\.all\s*\(|\bPromise\.race\s*\(/` -/
def patPromiseCombinators : List (List RTok) :=
  [[RTok.wb, RTok.lit "Promise.all".data, RTok.star jsSpace, RTok.lit "(".data],
   [RTok.wb, RTok.lit "Promise.race".data, RTok.star jsSpace, RTok.lit "(".data]]

/-- The backtick character, written by code point to keep it out of the
Lean source text. -/
def backtick : Char := Char.ofNat 96

/-- Template-literal rule: a backtick, non-backticks, a backtick. -/
def patTemplate : List (List RTok) :=
  [[RTok.cls (fun c => c = backtick), RTok.star (fun c => c != backtick),
    RTok.cls (fun c => c = backtick)]]

/-- `/=\s*>/` -/
def patArrow : List (List RTok) :=
  [[RTok.lit "=".data, RTok.star jsSpace, RTok.lit ">".data]]

/-- `/\bfor\s*\(\s*(?:let|const)/` -/
def patForLetConst : List (List RTok) :=
  [[RTok.wb, RTok.lit "for".data, RTok.star jsSpace, RTok.lit "(".data,
    RTok.star jsSpace, RTok.lit "let".data],
   [RTok.wb, RTok.lit "for".data, RTok.star jsSpace, RTok.lit "(".data,
    RTok.star jsSpace, RTok.lit "const".data]]

/-- `/\.\.\.|\[\.\.\.]/` -/
def patSpread : List (List RTok) :=
  [[RTok.lit "...".data], [RTok.lit "[...]".data]]

/-- Object-destructuring rule: `{`, non-`}`s, `:`, spaces, non-`}`s, `}`,
spaces, `=` (braces written with escapes). -/
def patObjDestructuring : List (List RTok) :=
  [[RTok.lit "\x7b".data, RTok.star (fun c => c != '\x7d'), RTok.lit ":".data,
    RTok.star jsSpace, RTok.star (fun c => c != '\x7d'), RTok.lit "\x7d".data,
    RTok.star jsSpace, RTok.lit "=".data]]

/-- `/\[[^\]]*\]\s*=/` -/
def patArrDestructuring : List (List RTok) :=
  [[RTok.lit "[".data, RTok.star (fun c => c != ']'), RTok.lit "]".data,
    RTok.star jsSpace, RTok.lit "=".data]]

/-- The `forbiddenPatterns` array: pattern and message, in source order. -/
def forbiddenPatterns : List (List (List RTok) × String) :=
  [(patAsync, "async/await not allowed in Vocalls ES5.1"),
   (patClassDecl, "ES6 classes not allowed in Vocalls"),
   (patModule, "import/export not allowed in Vocalls"),
   (patRequire, "require() not allowed in Vocalls runtime"),
   (patLetConst, "let/const not allowed, use var in Vocalls ES5.1"),
   (patCatch, ".catch() not supported in Vocalls (use .then(success, error))"),
   (patNullish, "nullish coalescing (??) not allowed in ES5.1"),
   (patOptChain, "optional chaining (?.) not allowed in ES5.1"),
   (patEval, "eval/Function constructor not allowed in Vocalls"),
   (patConsole, "console.* not allowed, use logInfo/logWarn/logError"),
   (patTimers, "setTimeout/setInterval not available in Vocalls"),
   (patPromiseCombinators, "Promise.all/race not supported in Vocalls ES5.1"),
   (patTemplate, "Template literals not allowed in ES5.1"),
   (patArrow, "Arrow functions not allowed in ES5.1"),
   (patForLetConst, "for...of/for...in with let/const not allowed in ES5.1"),
   (patSpread, "Spread operator not allowed in ES5.1"),
   (patObjDestructuring, "Destructuring assignment not allowed in ES5.1"),
   (patArrDestructuring, "Array destructuring not allowed in ES5.1")]

/-- A violation record as pushed by `validateES51Compliance`:
`{line: index + 1, message, snippet: line.trim()}`.  The JavaScript object
carries no `ruleId` property, so reading `ruleId` yields `undefined`;
that absent property is modelled by an `Option` field that the scanner
always leaves at `none`. -/
structure Violation where
  ruleId : Option String
  line : Nat
  message : String
  snippet : String
deriving DecidableEq

/-- Suffix of the list just after the first `*/`, when one exists. -/
def findClose : List Char → Option (List Char)
  | [] => none
  | '*' :: '/' :: r => some r
  | _ :: r => findClose r

/-- Fuel-indexed worker for `stripBlock`; the fuel only serves termination
and is always at least the input length at every call. -/
def stripBlockAux : Nat → List Char → List Char
  | 0, cs => cs
  | n + 1, cs =>
    match cs with
    | [] => []
    | '/' :: '*' :: rest =>
      match findClose rest with
      | some r => stripBlockAux n r
      | none => '/' :: stripBlockAux n ('*' :: rest)
    | c :: rest => c :: stripBlockAux n rest

/-- `line.replace(/\/\*[\s\S]*?\*\//g, '')`: remove every shortest
`/* ... */` span, left to right; an unclosed `/*` is left in place. -/
def stripBlock (cs : List Char) : List Char := stripBlockAux cs.length cs

/-- `line.replace(/\/\/.*$/, '')`: truncate at the first `//`. -/
def stripLine : List Char → List Char
  | [] => []
  | '/' :: '/' :: _ => []
  | c :: r => c :: stripLine r

/-- The `cleanLine` computed for each line before pattern testing. -/
def cleanLine (l : List Char) : List Char := stripLine (stripBlock l)

/-- `String.prototype.trim`: strip whitespace from both ends. -/
def trimChars (l : List Char) : List Char :=
  ((l.dropWhile jsSpace).reverse.dropWhile jsSpace).reverse

/-- `code.split('\n')` — always at least one (possibly empty) line. -/
def splitNl : List Char → List (List Char)
  | [] => [[]]
  | '\n' :: r => [] :: splitNl r
  | c :: r =>
    match splitNl r with
    | l :: ls => (c :: l) :: ls
    | [] => [[c]]

/-- The violations pushed for one line whose 1-based number is `idx1`:
each matching pattern contributes one record, in rule order. -/
def lineViolations (idx1 : Nat) (line : List Char) : List Violation :=
  forbiddenPatterns.filterMap fun pr =>
    if regexTest pr.1 (cleanLine line) = true then
      some { ruleId := none, line := idx1, message := pr.2,
             snippet := String.mk (trimChars line) }
    else none

/-- `lines.forEach((line, index) => ...)`: scan the lines whose 0-based
indices start at `n`. -/
def scanLinesFrom : Nat → List (List Char) → List Violation
  | _, [] => []
  | n, l :: ls => lineViolations (n + 1) l ++ scanLinesFrom (n + 1) ls

/-- `validateES51Compliance(code)`. -/
def validateES51Compliance (code : String) : List Violation :=
  scanLinesFrom 0 (splitNl code.data)

/-- `hasSeq needle hay`: `needle` occurs inside `hay` as a contiguous run
(the plain reading of "the line contains `const x = 1;`"). -/
def hasSeq (needle : List Char) : List Char → Bool
  | [] => startsWithSeq needle []
  | c :: r => startsWithSeq needle (c :: r) || hasSeq needle r

/-! ### Simulation engine — `core/src/simulator/engine.js`

The `VocallsSimulator` state and the API handlers the sandbox exposes are
embedded as explicit state passing.  Wall-clock timestamps (`Date.now`,
`new Date().toISOString()`) are elided; the counters, the storage map and
the HTTP log are kept.  A fragment's interaction with the sandbox is
abstracted to the operations relevant here: declaring a global function
(or `var`-style binding), calling one, and invoking the HTTP/storage
APIs.  Scripts run via `script.runInNewContext(sandbox, ...)` against the
one shared `sandbox` object, so global declarations become properties of
that object and persist into the later fragments of the same run. -/

/-- The `this.stats` counters of the simulator. -/
structure SimStats where
  filesLoaded : Nat
  httpRequests : Nat
  storageOps : Nat
deriving DecidableEq

/-- One entry of `this.httpRequests` (timestamp/headers/body elided). -/
structure HttpRequestEntry where
  method : String
  url : String
deriving DecidableEq

/-- The `config` argument of `jsonHttpRequest`/`httpRequest`. -/
structure HttpConfig where
  url : String
  method : Option String
deriving DecidableEq

/-- The stub response envelope of `createStubResponse` (timestamp and the
constant headers elided). -/
structure HttpResponse where
  success : Bool
  status : Nat
  message : String
  method : String
deriving DecidableEq

/-- Result object of `Storage.readFile`. -/
structure ReadResult where
  success : Bool
  text : Option String
  error : Option String
deriving DecidableEq

/-- Result object of `Storage.writeFile`. -/
structure WriteResult where
  success : Bool
  error : Option String
deriving DecidableEq

/-- The mutable simulator state: the configured modes, the counters, the
in-memory storage `Map` and the HTTP request log. -/
structure SimState where
  httpMode : String
  storageMode : String
  stats : SimStats
  memoryStorage : List (String × String)
  httpLog : List HttpRequestEntry
deriving DecidableEq

/-- A fresh simulator, as built by the constructor for the given modes
(the constructor defaults are `'stub'` and `'memory'`). -/
def initState (httpMode storageMode : String) : SimState :=
  { httpMode := httpMode, storageMode := storageMode,
    stats := { filesLoaded := 0, httpRequests := 0, storageOps := 0 },
    memoryStorage := [], httpLog := [] }

/-- `this.memoryStorage.get(k)`. -/
def storageGet (m : List (String × String)) (k : String) : Option String :=
  match m with
  | [] => none
  | (k2, v) :: rest => if k2 = k then some v else storageGet rest k

/-- `this.memoryStorage.set(k, v)` — the most recent binding wins. -/
def storageSet (m : List (String × String)) (k v : String) : List (String × String) :=
  (k, v) :: m

/-- `handleHttpRequest(config)`: count and log the request, then either
resolve the stub envelope (`httpMode === 'stub'`) or reject with the
explicit not-implemented error.  The method is `async`, so in the engine
the error reaches the calling script as a rejected promise; the `Except`
is that settled promise outcome. -/
def handleHttpRequest (st : SimState) (config : HttpConfig) :
    SimState × Except String HttpResponse :=
  let entry : HttpRequestEntry := { method := config.method.getD "GET", url := config.url }
  let st1 : SimState :=
    { st with stats := { st.stats with httpRequests := st.stats.httpRequests + 1 },
              httpLog := st.httpLog ++ [entry] }
  if st.httpMode = "stub" then
    (st1, Except.ok { success := true, status := 200,
                      message := "Stubbed response for " ++ config.url,
                      method := config.method.getD "GET" })
  else
    (st1, Except.error "Real HTTP mode not implemented in this demo")

/-- `handleStorageRead(filePath)`: count the operation; in memory mode
`success` is `content !== undefined`, `text` is `content || null`, and a
missing key is the tagged `'file_not_found'` result. -/
def handleStorageRead (st : SimState) (filePath : String) : SimState × ReadResult :=
  let st1 : SimState :=
    { st with stats := { st.stats with storageOps := st.stats.storageOps + 1 } }
  if st.storageMode = "memory" then
    let content := storageGet st.memoryStorage filePath
    (st1, { success := content.isSome,
            text := match content with
                    | some s => if s = "" then none else some s
                    | none => none,
            error := match content with
                     | some _ => none
                     | none => some "file_not_found" })
  else
    (st1, { success := false, text := none, error := some "disk_storage_not_implemented" })

/-- `handleStorageWrite(filePath, content)`: count the operation; in
memory mode store `String(content || '')` (the identity on the string
contents considered here) and report success. -/
def handleStorageWrite (st : SimState) (filePath content : String) :
    SimState × WriteResult :=
  let st1 : SimState :=
    { st with stats := { st.stats with storageOps := st.stats.storageOps + 1 } }
  let stored := if content = "" then "" else content
  if st.storageMode = "memory" then
    ({ st1 with memoryStorage := storageSet st1.memoryStorage filePath stored },
     { success := true, error := none })
  else
    (st1, { success := false, error := some "disk_storage_not_implemented" })

/-- The sandbox interactions a fragment can perform. -/
inductive SandboxOp where
  | defineFun : String → SandboxOp
  | callFun : String → SandboxOp
  | http : HttpConfig → SandboxOp
  | storageRead : String → SandboxOp
  | storageWrite : String → String → SandboxOp

/-- Evaluate a fragment's operations.  `env` is the set of global names
already defined on the shared sandbox object; a call of an undefined
name throws the `ReferenceError` text `'<name> is not defined'`.  An
HTTP call returns a promise, so in `'real'` mode the rejection does not
abort the synchronous evaluation; storage calls never throw. -/
def runOps : List SandboxOp → List String → SimState →
    Except String (List String × SimState)
  | [], env, st => Except.ok (env, st)
  | SandboxOp.defineFun n :: ops, env, st => runOps ops (env ++ [n]) st
  | SandboxOp.callFun n :: ops, env, st =>
    if n ∈ env then runOps ops env st
    else Except.error (n ++ " is not defined")
  | SandboxOp.http cfg :: ops, env, st => runOps ops env (handleHttpRequest st cfg).1
  | SandboxOp.storageRead p :: ops, env, st => runOps ops env (handleStorageRead st p).1
  | SandboxOp.storageWrite p c :: ops, env, st =>
    runOps ops env (handleStorageWrite st p c).1

/-- `loadScript(sandbox, relativePath)` on an existing file: run the code
against the shared sandbox, bump `stats.filesLoaded` on success, and wrap
any evaluation error as `Error in <path>: <message>`. -/
def loadScript (st : SimState) (env : List String) (path : String)
    (ops : List SandboxOp) : Except String (List String × SimState) :=
  match runOps ops env st with
  | Except.ok (env2, st2) =>
    Except.ok (env2,
      { st2 with stats := { st2.stats with filesLoaded := st2.stats.filesLoaded + 1 } })
  | Except.error e => Except.error ("Error in " ++ path ++ ": " ++ e)

/-- The `for (const file of loadOrder) await this.loadScript(...)` loop of
`loadProjectFiles`: a failing fragment aborts the whole run. -/
def loadFragments : List (String × List SandboxOp) → List String → SimState →
    Except String (List String × SimState)
  | [], env, st => Except.ok (env, st)
  | (p, ops) :: fs, env, st =>
    match loadScript st env p ops with
    | Except.ok (env2, st2) => loadFragments fs env2 st2
    | Except.error e => Except.error e

/-- The report object returned by `execute` (`executionTime` and the
session-state snapshot elided). -/
structure ExecReport where
  filesLoaded : Nat
  httpRequests : Nat
  storageOps : Nat
  httpLog : List HttpRequestEntry
deriving DecidableEq

/-- `execute`: build the sandbox, load every fragment in order, and return
the report — there is no mode check anywhere before or besides the
individual API calls. -/
def execute (httpMode storageMode : String)
    (fragments : List (String × List SandboxOp)) : Except String ExecReport :=
  match loadFragments fragments [] (initState httpMode storageMode) with
  | Except.ok (_, st) =>
    Except.ok { filesLoaded := st.stats.filesLoaded,
                httpRequests := st.stats.httpRequests,
                storageOps := st.stats.storageOps,
                httpLog := st.httpLog }
  | Except.error e => Except.error e

/-- Timing model of the fragment loop: each `loadScript` call passes its
own `{timeout: 5000}` to `runInNewContext`, so a fragment whose evaluation
takes `d` milliseconds times out exactly when `d > 5000`, independently of
the time spent by earlier fragments; on success the run's elapsed time is
the sum of the fragments' times.  A timeout is wrapped by `loadScript`
into `Error in <path>: ...` and aborts the run with no report. -/
def runFragmentsTimed : List (String × Nat) → Except String Nat
  | [] => Except.ok 0
  | (p, d) :: fs =>
    if d > 5000 then
      Except.error ("Error in " ++ p ++ ": Script execution timed out after 5000ms")
    else
      match runFragmentsTimed fs with
      | Except.ok t => Except.ok (d + t)
      | Except.error e => Except.error e

/-! ### Helper lemmas about the sorter -/

theorem jsInsert_perm (cmp : String → String → Int) (x : String) (l : List String) :
    (jsInsert cmp x l).Perm (x :: l) := by
  induction l with
  | nil => simp [jsInsert]
  | cons b bs ih =>
    by_cases h : cmp b x ≤ 0
    · simp only [jsInsert, if_pos h]
      exact (ih.cons b).trans (List.Perm.swap x b bs)
    · simp [jsInsert, if_neg h]

theorem jsSortAux_perm (cmp : String → String → Int) (l acc : List String) :
    (List.foldl (fun a x => jsInsert cmp x a) acc l).Perm (acc ++ l) := by
  induction l generalizing acc with
  | nil => simp
  | cons x xs ih =>
    simp only [List.foldl_cons]
    refine ((ih (jsInsert cmp x acc)).trans ?_)
    refine ((jsInsert_perm cmp x acc).append_right xs).trans ?_
    exact List.perm_middle.symm

theorem jsSort_perm (cmp : String → String → Int) (l : List String) :
    (jsSort cmp l).Perm l := by
  simpa using jsSortAux_perm cmp l []

/-! ### Claims about the Fragment Sorter -/

/-- C3: `order(['10-tenth.js','2-second.js','1-first.js','alpha.js','beta.js'], [])`
returns exactly `['1-first.js','2-second.js','10-tenth.js','alpha.js','beta.js']`:
with an empty explicit order, numeric-leading names are sorted by the value
of their leading digit run and precede the lexicographically sorted rest. -/
theorem c3_order_example :
    sortLibraryFilesWithDependencies
      ["10-tenth.js", "2-second.js", "1-first.js", "alpha.js", "beta.js"] (some []) =
      ["1-first.js", "2-second.js", "10-tenth.js", "alpha.js", "beta.js"] := by
  decide

/-- C7 (counterexample): with `explicitOrder = ['b.js']` and input
`['a.js']`, the output contains `'b.js'`, a name not among the input file
names, so the output is not a permutation of the input. -/
theorem c7_counterexample :
    "b.js" ∈ sortLibraryFilesWithDependencies ["a.js"] (some ["b.js"]) ∧
    "b.js" ∉ ["a.js"] ∧
    ¬ (sortLibraryFilesWithDependencies ["a.js"] (some ["b.js"])).Perm ["a.js"] := by
  refine ⟨by decide, by decide, fun h => ?_⟩
  have hb : "b.js" ∈ sortLibraryFilesWithDependencies ["a.js"] (some ["b.js"]) := by
    decide
  exact absurd (h.mem_iff.mp hb) (by decide)

/-- C7 (amended): when every explicit-order name occurs among the input
file names and neither list has duplicates, the output of `order` is a
permutation of the input: every input name appears exactly once and no
foreign name appears. -/
theorem c7_order_perm (files ord : List String)
    (hsub : ∀ x ∈ ord, x ∈ files) (hord : ord.Nodup) (hfiles : files.Nodup) :
    (sortLibraryFilesWithDependencies files (some ord)).Perm files := by
  by_cases hlen : ord.length > 0
  · simp only [sortLibraryFilesWithDependencies, if_pos hlen]
    have hfilter : (files.filter (fun f => !(includes ord f))).Nodup :=
      hfiles.filter (fun f => !(includes ord f))
    have hdisj : ord.Disjoint (files.filter (fun f => !(includes ord f))) := by
      intro a ha hb
      have := (List.mem_filter.mp hb).2
      simp [includes] at this
      exact this ha
    refine ((jsSort_perm vocallsCompare _).append_left ord).trans ?_
    rw [List.perm_ext_iff_of_nodup (hord.append hfilter hdisj) hfiles]
    intro a
    simp only [List.mem_append, List.mem_filter, includes, Bool.not_eq_true',
      decide_eq_false_iff_not]
    constructor
    · rintro (h | ⟨h, _⟩)
      · exact hsub a h
      · exact h
    · intro h
      by_cases hmem : a ∈ ord
      · exact Or.inl hmem
      · exact Or.inr ⟨h, hmem⟩
  · have hnil : ord = [] := by
      cases ord with
      | nil => rfl
      | cons a l => simp at hlen
    subst hnil
    simpa [sortLibraryFilesWithDependencies] using jsSort_perm vocallsCompare files

/-- C7 (witness): the amended permutation theorem at the concrete input
`files = ['b.js','a.js']`, `explicitOrder = ['b.js']`. -/
theorem c7_order_perm_witness :
    (sortLibraryFilesWithDependencies ["b.js", "a.js"] (some ["b.js"])).Perm
      ["b.js", "a.js"] :=
  c7_order_perm ["b.js", "a.js"] ["b.js"] (by decide) (by decide) (by decide)

/-- C8 (counterexample): on the fallback path the `fileNames` array is
sorted in place by `Array.prototype.sort`, so after
`order(['b.js','a.js'], null)` the argument array no longer holds its
original contents — `order` is not free of side effects on its arguments. -/
theorem c8_counterexample :
    (sortLibraryFilesWithDependenciesCall ["b.js", "a.js"] none).2 ≠
      ["b.js", "a.js"] := by
  decide

/-- C8 (amended): `order` computes its result purely from its arguments
and has no side effect other than mutating `fileNames` in place on the
fallback path: with a non-empty explicit order the `fileNames` array is
left unchanged and the returned value is the pure sorting function of the
arguments, while with no explicit order the array is left holding exactly
the sorted result. -/
theorem c8_explicit_order_no_mutation (files ord : List String) (h : ord ≠ []) :
    (sortLibraryFilesWithDependenciesCall files (some ord)).2 = files ∧
    (sortLibraryFilesWithDependenciesCall files (some ord)).1 =
      sortLibraryFilesWithDependencies files (some ord) ∧
    (sortLibraryFilesWithDependenciesCall files none).2 = sortLibraryFiles files := by
  have hlen : ord.length > 0 := by
    cases ord with
    | nil => cases h rfl
    | cons a l => simp
  refine ⟨?_, ?_, rfl⟩ <;>
    simp [sortLibraryFilesWithDependenciesCall, sortLibraryFilesWithDependencies,
      sortLibraryFilesCall, hlen]

/-- C8 (witness): the amended no-mutation theorem at the concrete input
`files = ['b.js','a.js']`, `explicitOrder = ['z.js']`. -/
theorem c8_explicit_order_no_mutation_witness :
    (sortLibraryFilesWithDependenciesCall ["b.js", "a.js"] (some ["z.js"])).2 =
      ["b.js", "a.js"] ∧
    (sortLibraryFilesWithDependenciesCall ["b.js", "a.js"] (some ["z.js"])).1 =
      sortLibraryFilesWithDependencies ["b.js", "a.js"] (some ["z.js"]) ∧
    (sortLibraryFilesWithDependenciesCall ["b.js", "a.js"] none).2 =
      sortLibraryFiles ["b.js", "a.js"] :=
  c8_explicit_order_no_mutation ["b.js", "a.js"] ["z.js"] (by decide)

/-- C1: the Simulation Session does not resolve the library Load Order as
the Assembler does.  For the library set `['10-tenth.js','2-second.js']`
with no explicit `libraryOrder`, the engine's `getLibraryFiles` fallback
(plain lexicographic `Array.sort()`) keeps `'10-tenth.js'` first, while
the Fragment Sorter the Assembler applies puts `'2-second.js'` first, so
the two subsystems produce different ordered sequences.  The repository's
own `ANALYSIS_AND_RECOMMENDATIONS.md` states both engines were updated to
use the Fragment Sorter, which the simulator code contradicts. -/
theorem c1_library_order_divergence :
    simulatorLibraryOrder ["10-tenth.js", "2-second.js"] none =
      ["10-tenth.js", "2-second.js"] ∧
    assemblerLibraryOrder ["10-tenth.js", "2-second.js"] none =
      ["2-second.js", "10-tenth.js"] ∧
    simulatorLibraryOrder ["10-tenth.js", "2-second.js"] none ≠
      assemblerLibraryOrder ["10-tenth.js", "2-second.js"] none := by
  refine ⟨by decide, by decide, by decide⟩

/-! ### Helper lemmas about the Scanner -/

theorem letConst_mem_forbiddenPatterns :
    (patLetConst, "let/const not allowed, use var in Vocalls ES5.1") ∈
      forbiddenPatterns := by
  unfold forbiddenPatterns
  exact List.mem_cons_of_mem _ (List.mem_cons_of_mem _ (List.mem_cons_of_mem _
    (List.mem_cons_of_mem _ (List.mem_cons_self _ _))))

theorem scan_from_line (ls : List (List Char)) : ∀ (n i : Nat) (h : i < ls.length),
    regexTest patLetConst (cleanLine (ls.get ⟨i, h⟩)) = true →
    ∃ v ∈ scanLinesFrom n ls, v.line = n + i + 1 := by
  induction ls with
  | nil => intro n i h; simp at h
  | cons l ls2 ih =>
    intro n i h hm
    cases i with
    | zero =>
      refine ⟨{ ruleId := none, line := n + 1,
                message := "let/const not allowed, use var in Vocalls ES5.1",
                snippet := String.mk (trimChars l) }, ?_, rfl⟩
      refine List.mem_append_left _ (List.mem_filterMap.mpr
        ⟨(patLetConst, "let/const not allowed, use var in Vocalls ES5.1"),
         letConst_mem_forbiddenPatterns, ?_⟩)
      simp only [List.get] at hm
      simp [lineViolations, hm]
    | succ j =>
      have h2 : j < ls2.length := by simpa using h
      obtain ⟨v, hv, hline⟩ := ih (n + 1) j h2 (by simpa using hm)
      exact ⟨v, List.mem_append_right _ hv, by omega⟩

theorem scan_from_shape (ls : List (List Char)) : ∀ (n : Nat) (v : Violation),
    v ∈ scanLinesFrom n ls →
    v.ruleId = none ∧ (∃ p ∈ forbiddenPatterns, v.message = p.2) ∧
    n + 1 ≤ v.line ∧ v.line ≤ n + ls.length := by
  induction ls with
  | nil => intro n v hv; simp [scanLinesFrom] at hv
  | cons l ls2 ih =>
    intro n v hv
    rcases List.mem_append.mp hv with h1 | h2
    · unfold lineViolations at h1
      rcases List.mem_filterMap.mp h1 with ⟨p, hp, heq⟩
      by_cases hc : regexTest p.1 (cleanLine l) = true
      · rw [if_pos hc] at heq
        cases Option.some.inj heq
        refine ⟨rfl, ⟨p, hp, rfl⟩, Nat.le_refl _, ?_⟩
        simp only [List.length_cons]
        omega
      · rw [if_neg hc] at heq
        exact absurd heq (by simp)
    · obtain ⟨e1, e2, e3, e4⟩ := ih (n + 1) v h2
      refine ⟨e1, e2, by omega, ?_⟩
      simp only [List.length_cons]
      omega

/-! ### Claims about the Scanner -/

/-- C2 (counterexample): the single line of `'// const x = 1;'` contains
`const x = 1;`, yet `scan` strips `//` comments per line before testing,
so it returns no Violation at all — in particular none with line 1. -/
theorem c2_counterexample :
    splitNl "// const x = 1;".data = ["// const x = 1;".data] ∧
    hasSeq "const x = 1;".data "// const x = 1;".data = true ∧
    validateES51Compliance "// const x = 1;" = [] := by
  refine ⟨by decide, by decide, by decide⟩

/-- C2 (amended): for every source text and every line index whose line
still matches the scanner's let/const rule after the per-line comment
stripping (for example a line reading `const x = 1;` outside comments),
`scan` returns at least one Violation whose `line` field is that line's
1-based number in the original file. -/
theorem c2_scan_line_number (code : String) (i : Nat)
    (h : i < (splitNl code.data).length)
    (hm : regexTest patLetConst (cleanLine ((splitNl code.data).get ⟨i, h⟩)) = true) :
    ∃ v ∈ validateES51Compliance code, v.line = i + 1 := by
  have := scan_from_line (splitNl code.data) 0 i h hm
  simpa [validateES51Compliance] using this

/-- C2 (witness): the amended theorem at the concrete source
`"var a;\nconst x = 1;"`, whose second line is `const x = 1;`. -/
theorem c2_scan_line_number_witness :
    ∃ v ∈ validateES51Compliance "var a;\nconst x = 1;", v.line = 2 :=
  c2_scan_line_number "var a;\nconst x = 1;" 1 (by decide) (by decide)

/-- C9 (counterexample): `scan('const x = 1;')` is non-empty and every
Violation it returns has no `ruleId` — the records carry only `line`,
`message` and `snippet`, so no returned Violation carries a `ruleId`
identifying the rule that matched. -/
theorem c9_counterexample :
    validateES51Compliance "const x = 1;" ≠ [] ∧
    ∀ v ∈ validateES51Compliance "const x = 1;", v.ruleId = none := by
  refine ⟨by decide, by decide⟩

/-- C9 (amended): every Violation produced by `scan` is a record with
the fields `line`, `message` and `snippet` and no `ruleId` (reading
`ruleId` yields `undefined`); the rule that matched is identified by the
`message` text, which is always the message of some forbidden-construct
rule, and `line` is a 1-based line number of the scanned text. -/
theorem c9_violation_shape (code : String) (v : Violation)
    (hv : v ∈ validateES51Compliance code) :
    v.ruleId = none ∧ (∃ p ∈ forbiddenPatterns, v.message = p.2) ∧
    1 ≤ v.line ∧ v.line ≤ (splitNl code.data).length := by
  have := scan_from_shape (splitNl code.data) 0 v hv
  simpa using this

/-- C9 (witness): the amended theorem at `scan('const x = 1;')` and its
one concrete Violation. -/
theorem c9_violation_shape_witness :
    ({ ruleId := none, line := 1,
       message := "let/const not allowed, use var in Vocalls ES5.1",
       snippet := "const x = 1;" } : Violation).ruleId = none ∧
    (∃ p ∈ forbiddenPatterns,
      ({ ruleId := none, line := 1,
         message := "let/const not allowed, use var in Vocalls ES5.1",
         snippet := "const x = 1;" } : Violation).message = p.2) ∧
    1 ≤ ({ ruleId := none, line := 1,
           message := "let/const not allowed, use var in Vocalls ES5.1",
           snippet := "const x = 1;" } : Violation).line ∧
    ({ ruleId := none, line := 1,
       message := "let/const not allowed, use var in Vocalls ES5.1",
       snippet := "const x = 1;" } : Violation).line ≤
      (splitNl "const x = 1;".data).length :=
  c9_violation_shape "const x = 1;"
    { ruleId := none, line := 1,
      message := "let/const not allowed, use var in Vocalls ES5.1",
      snippet := "const x = 1;" } (by decide)

/-! ### Claims about the simulation engine -/

/-- C4: a binding declared by an earlier fragment is visible to a later
fragment of the same run: a run where fragment A defines a function and
fragment B (after A) calls it succeeds, while the reversed order fails
with an evaluation error wrapped as `Error in <B>: <name> is not defined`,
attributing the failure to fragment B. -/
theorem c4_cross_fragment_visibility (pA pB fname : String) (env : List String)
    (st : SimState) (h : fname ∉ env) :
    (∃ r, loadFragments
        [(pA, [SandboxOp.defineFun fname]), (pB, [SandboxOp.callFun fname])] env st =
        Except.ok r) ∧
    loadFragments
        [(pB, [SandboxOp.callFun fname]), (pA, [SandboxOp.defineFun fname])] env st =
      Except.error ("Error in " ++ pB ++ ": " ++ (fname ++ " is not defined")) := by
  have hmem : fname ∈ env ++ [fname] :=
    List.mem_append_right env (List.mem_singleton_self fname)
  constructor
  · refine ⟨(env ++ [fname],
      { st with stats := { st.stats with filesLoaded := st.stats.filesLoaded + 1 + 1 } }), ?_⟩
    simp [loadFragments, loadScript, runOps, hmem]
  · simp [loadFragments, loadScript, runOps, h]

/-- C4 (witness): the visibility theorem at two concrete library
fragments and the function name `helper`. -/
theorem c4_cross_fragment_visibility_witness :
    (∃ r, loadFragments
        [("src/globalLibraries/active/a.js", [SandboxOp.defineFun "helper"]),
         ("src/globalLibraries/active/b.js", [SandboxOp.callFun "helper"])] []
        (initState "stub" "memory") = Except.ok r) ∧
    loadFragments
        [("src/globalLibraries/active/b.js", [SandboxOp.callFun "helper"]),
         ("src/globalLibraries/active/a.js", [SandboxOp.defineFun "helper"])] []
        (initState "stub" "memory") =
      Except.error ("Error in " ++ "src/globalLibraries/active/b.js" ++ ": " ++
        ("helper" ++ " is not defined")) :=
  c4_cross_fragment_visibility "src/globalLibraries/active/a.js"
    "src/globalLibraries/active/b.js" "helper" [] (initState "stub" "memory")
    (by decide)

/-- C5 (counterexample): two fragments of 4000 ms each evaluate
successfully although their combined time, 8000 ms, exceeds the claimed
single shared 5000 ms budget — the `{timeout: 5000}` option is passed to
each `runInNewContext` call separately, so the budget is per fragment,
not per run. -/
theorem c5_counterexample :
    runFragmentsTimed [("src/globalCode.js", 4000), ("src/callScripts/main.js", 4000)] =
      Except.ok 8000 ∧ 5000 < 8000 := by
  exact ⟨rfl, by decide⟩

/-- C5 (amended): the execution budget is enforced per fragment with the
hard-coded 5000 ms limit: if every fragment before some fragment `p`
stays within 5000 ms and `p` exceeds 5000 ms, the run fails atomically
with the timeout error attributed to `p` and no report is produced,
regardless of the total time of the run. -/
theorem c5_per_fragment_timeout (pre : List (String × Nat)) (p : String) (d : Nat)
    (post : List (String × Nat)) (hpre : ∀ x ∈ pre, x.2 ≤ 5000) (hd : 5000 < d) :
    runFragmentsTimed (pre ++ (p, d) :: post) =
      Except.error ("Error in " ++ p ++ ": Script execution timed out after 5000ms") := by
  induction pre with
  | nil =>
    simp only [List.nil_append, runFragmentsTimed]
    rw [if_pos hd]
  | cons x xs ih =>
    obtain ⟨p1, d1⟩ := x
    have h1 : d1 ≤ 5000 := by
      have := hpre (p1, d1) (List.mem_cons_self _ _)
      simpa using this
    have hnot : ¬ (d1 > 5000) := by omega
    have hrec := ih (fun y hy => hpre y (List.mem_cons_of_mem _ hy))
    simp only [List.cons_append, runFragmentsTimed, if_neg hnot, List.append_eq, hrec]

/-- C5 (witness): the per-fragment timeout theorem at a concrete run: a
4000 ms fragment followed by a 6000 ms fragment fails with the timeout
attributed to the second fragment. -/
theorem c5_per_fragment_timeout_witness :
    runFragmentsTimed [("src/globalCode.js", 4000), ("src/callScripts/main.js", 6000)] =
      Except.error ("Error in " ++ "src/callScripts/main.js" ++
        ": Script execution timed out after 5000ms") :=
  c5_per_fragment_timeout [("src/globalCode.js", 4000)] "src/callScripts/main.js"
    6000 [] (by decide) (by decide)

/-- C6 (counterexample): a Simulation Session configured with
`httpMode: 'real'` whose fragments perform no HTTP request completes
successfully and returns a report — `execute` performs no mode check, so
the session does not fail immediately at configuration. -/
theorem c6_counterexample :
    execute "real" "memory"
      [("src/callScripts/main.js", [SandboxOp.defineFun "f", SandboxOp.callFun "f"])] =
      Except.ok { filesLoaded := 1, httpRequests := 0, storageOps := 0, httpLog := [] } := by
  rfl

/-- C6 (amended): in `'real'` HTTP mode an individual HTTP request fails
explicitly rather than stubbing: `handleHttpRequest` first records the
request (counter and log) and then rejects with the explicit error
`'Real HTTP mode not implemented in this demo'`; the session only fails
when such a request is actually performed, not at configuration time. -/
theorem c6_real_mode_http (st : SimState) (cfg : HttpConfig)
    (h : st.httpMode = "real") :
    (handleHttpRequest st cfg).2 =
      Except.error "Real HTTP mode not implemented in this demo" ∧
    (handleHttpRequest st cfg).1.stats.httpRequests = st.stats.httpRequests + 1 ∧
    (handleHttpRequest st cfg).1.httpLog =
      st.httpLog ++ [{ method := cfg.method.getD "GET", url := cfg.url }] := by
  simp [handleHttpRequest, h]

/-- C6 (witness): the real-mode rejection theorem at a fresh real-mode
simulator and a concrete POST request. -/
theorem c6_real_mode_http_witness :
    (handleHttpRequest (initState "real" "memory")
        { url := "https://api.example.test/v1", method := some "POST" }).2 =
      Except.error "Real HTTP mode not implemented in this demo" ∧
    (handleHttpRequest (initState "real" "memory")
        { url := "https://api.example.test/v1", method := some "POST" }).1.stats.httpRequests = 1 ∧
    (handleHttpRequest (initState "real" "memory")
        { url := "https://api.example.test/v1", method := some "POST" }).1.httpLog =
      [{ method := "POST", url := "https://api.example.test/v1" }] :=
  c6_real_mode_http (initState "real" "memory")
    { url := "https://api.example.test/v1", method := some "POST" } rfl

/-- C10: in memory storage mode, `Storage.writeFile(k, v)` with a
non-empty string `v` returns `{success: true, error: null}` and bumps the
storage-operation counter by one, and a subsequent `Storage.readFile(k)`
returns `{success: true, text: v, error: null}` and bumps the counter by
one again. -/
theorem c10_storage_roundtrip (st : SimState) (k v : String)
    (hmode : st.storageMode = "memory") (hv : v ≠ "") :
    (handleStorageWrite st k v).2 = { success := true, error := none } ∧
    (handleStorageWrite st k v).1.stats.storageOps = st.stats.storageOps + 1 ∧
    (handleStorageRead (handleStorageWrite st k v).1 k).2 =
      { success := true, text := some v, error := none } ∧
    (handleStorageRead (handleStorageWrite st k v).1 k).1.stats.storageOps =
      (handleStorageWrite st k v).1.stats.storageOps + 1 := by
  simp [handleStorageWrite, handleStorageRead, storageGet, storageSet, hmode, hv]

/-- C10 (witness): the storage round-trip theorem on a fresh memory-mode
simulator with key `'data/cache.json'` and contents `'hello'`. -/
theorem c10_storage_roundtrip_witness :
    (handleStorageWrite (initState "stub" "memory") "data/cache.json" "hello").2 =
      { success := true, error := none } ∧
    (handleStorageWrite (initState "stub" "memory") "data/cache.json" "hello").1.stats.storageOps = 1 ∧
    (handleStorageRead
        (handleStorageWrite (initState "stub" "memory") "data/cache.json" "hello").1
        "data/cache.json").2 =
      { success := true, text := some "hello", error := none } ∧
    (handleStorageRead
        (handleStorageWrite (initState "stub" "memory") "data/cache.json" "hello").1
        "data/cache.json").1.stats.storageOps = 2 :=
  c10_storage_roundtrip (initState "stub" "memory") "data/cache.json" "hello"
    rfl (by decide)

end Vocalls
